import Mathlib

/-!
Shallow embedding of the carbot repository (src/carbot.py and
src/carbotv2.py): a Telegram command handler that turns a dollar amount
plus optional free text into a vehicle-listings query and replies with a
randomly chosen listing or a fallback.

Modelling conventions:
* The two outbound network calls (completion service, listings API) are
  modelled by oracle values (`CompletionOutcome`, `HttpOutcome`) supplied
  as inputs; `random.choice` is modelled by an index oracle.
* A handler run is embedded as the list of observable effects it performs
  (translator call, listings request, replies), in order.
* Python float arithmetic (`target_price * 0.9`, `* 1.10`) is modelled
  exactly over ℚ.
* Python `int(s)` is modelled for sign-plus-ASCII-digit words (command
  arguments are whitespace-split words, so the leading/trailing-space and
  underscore forms Python also accepts cannot occur); `str.isdigit` and
  `str.isspace` are modelled over ASCII likewise.
-/

namespace CarbotModel

/-- JSON values, as produced by `json.loads` (JSON `null` is Python `None`). -/
inductive Json where
  | null : Json
  | bool (b : Bool) : Json
  | num (q : ℚ) : Json
  | str (s : String) : Json
  | arr (elems : List Json) : Json
  | obj (entries : List (String × Json)) : Json

/-- Python `v is None` on a decoded JSON value. -/
def Json.isNull : Json → Bool
  | .null => true
  | _ => false

/-- One record of the listings-API response body; each field may be missing.
Only the fields the bot reads are modelled. -/
structure ListingRecord where
  year : Option Int
  make : Option String
  model : Option String
  primaryPhotoUrl : Option String
  deriving DecidableEq

/-- Python truthiness of `listing.get('primaryPhotoUrl')`: `None` and the
empty string are falsy. -/
def truthyStrOpt : Option String → Bool
  | none => false
  | some s => !s.isEmpty

/-- Observable effects of one command invocation, in order. -/
inductive Event where
  | translatorCall (query : String)
  | listingsRequest (params : List (String × Json))
  | replyText (message : String)
  | replyPhoto (photo : String) (caption : Option String)

/-- Whether an event is a user-facing reply. -/
def isReply : Event → Bool
  | .replyText _ => true
  | .replyPhoto _ _ => true
  | _ => false

/-- Number of user-facing replies in a trace. -/
def countReplies (tr : List Event) : Nat := (tr.filter isReply).length

/-- Outcome of the one completion-service call made by `parse_car_query`:
either the call itself raised, or it returned `text`, whose `json.loads`
result is `parsed` (`none` when decoding raises `JSONDecodeError`). -/
inductive CompletionOutcome where
  | callFailed
  | returned (text : String) (parsed : Option Json)

/-- Outcome of the listings-API GET: `requests` timeout, an HTTP-error
status (raised by `raise_for_status`), a 2xx body that is not JSON, or a
decoded body whose `records` field is `records` (`none` when absent). -/
inductive HttpOutcome where
  | timeout
  | httpError (body : String)
  | invalidJson
  | ok (records : Option (List ListingRecord))

/-- Python `str.isspace` (ASCII model): non-empty and all whitespace. -/
def pyIsSpace (s : String) : Bool :=
  !s.isEmpty && s.data.all Char.isWhitespace

/-- Python `str.isdigit` (ASCII model): non-empty and all digits. -/
def pyIsDigit (s : String) : Bool :=
  !s.isEmpty && s.data.all Char.isDigit

/-- Numeric value of a list of ASCII digits. -/
def digitsVal (ds : List Char) : Nat :=
  ds.foldl (fun acc c => 10 * acc + (c.toNat - 48)) 0

/-- Python `int(s)` on a whitespace-split word: an optional sign followed
by one or more ASCII digits; `none` models the raised `ValueError`. -/
def pyInt (s : String) : Option Int :=
  match s.data with
  | [] => none
  | '-' :: ds =>
    if !ds.isEmpty && ds.all Char.isDigit then some (-(digitsVal ds : Int)) else none
  | '+' :: ds =>
    if !ds.isEmpty && ds.all Char.isDigit then some ((digitsVal ds : Int)) else none
  | ds =>
    if ds.all Char.isDigit then some ((digitsVal ds : Int)) else none

/-- Python `" ".join`. -/
def joinSpace : List String → String
  | [] => ""
  | [s] => s
  | s :: rest => s ++ " " ++ joinSpace rest

/-- The `price_min` request parameter: `max(0, target_price * 0.9)`. -/
def price_min (target_price : Int) : ℚ := max 0 ((target_price : ℚ) * (9 / 10))

/-- The `price_max` request parameter: `target_price * 1.10`. -/
def price_max (target_price : Int) : ℚ := (target_price : ℚ) * (11 / 10)

/-- The base `params` dict built for the listings GET (identical in both
source files, up to the API-key value). -/
def searchParams (apikey : String) (target_price : Int) : List (String × Json) :=
  [("apikey", Json.str apikey),
   ("price_min", Json.num (price_min target_price)),
   ("price_max", Json.num (price_max target_price)),
   ("page", Json.num 1),
   ("exclude_no_price", Json.str "true")]

/-- Python dict assignment `d[k] = v` on an association list with unique
keys: replace the value in place if the key is present, else append. -/
def setKey : List (String × Json) → String → Json → List (String × Json)
  | [], k, v => [(k, v)]
  | kv :: tl, k, v => if kv.1 == k then (k, v) :: tl else kv :: setKey tl k v

/-- Python `base.update(extra)`: assign every pair of `extra` in order. -/
def dictUpdate (base extra : List (String × Json)) : List (String × Json) :=
  extra.foldl (fun acc kv => setKey acc kv.1 kv.2) base

/-- Dict lookup on the association list. -/
def lookupKey (entries : List (String × Json)) (k : String) : Option Json :=
  (entries.find? (fun kv => kv.1 == k)).map Prod.snd

/-- The ten keys of the completion response schema (`car_search_params`
in src/carbot.py, with `additionalProperties: False`). -/
def schemaKeys : List String :=
  ["make", "model", "exterior_color[]", "body_style[]", "category",
   "condition[]", "features[]", "transmission[]", "driveline[]", "sort_filter"]

/-- The reply template of both files: `f"With your $\x7btarget_price\x7d, you
could have bought a \x7byear\x7d \x7bmake\x7d \x7bmodel\x7d!"` with each field read by
`listing.get(field, 'N/A')`. -/
def listingMessage (target_price : Int) (listing : ListingRecord) : String :=
  "With your $" ++ toString target_price ++ ", you could have bought a " ++
    (match listing.year with
     | some y => toString y
     | none => "N/A") ++ " " ++
    listing.make.getD "N/A" ++ " " ++ listing.model.getD "N/A" ++ "!"

end CarbotModel

namespace Carbot

open CarbotModel

/-- `parse_car_query` of src/carbot.py (lines 42-127): returns the decoded
completion object with null-valued keys dropped; every failure path — the
call raising, empty or whitespace-only text, a JSON decode error, or a
non-object decode (whose `.items()` raises into the outer handler) —
returns the empty dict. -/
def parse_car_query : CompletionOutcome → List (String × Json)
  | .callFailed => []
  | .returned text parsed =>
    if text.isEmpty || pyIsSpace text then []
    else
      match parsed with
      | some (Json.obj entries) => entries.filter (fun kv => !kv.2.isNull)
      | _ => []

/-- `get_autodev_car` of src/carbot.py (lines 129-209) as an effect trace.
When `search_query` is truthy the translator is invoked and its filters
merged into `params` via `dict.update`. After the listings GET: timeout
and HTTP/JSON errors are caught and answered; on a decoded body, an empty
or absent `records` list triggers the price fallback — and then the
`return` at line 174, which sits at the same indentation as the
zero-records test, executes unconditionally, so the selection code at
lines 177-198 is unreachable and a non-empty `records` list produces no
reply at all. -/
def get_autodev_car (apikey : String) (target_price : Int)
    (search_query : Option String) (completion : CompletionOutcome)
    (http : HttpOutcome) : List Event :=
  let base := searchParams apikey target_price
  let pre : List Event × List (String × Json) :=
    match search_query with
    | none => ([], base)
    | some q =>
      if q.isEmpty then ([], base)
      else ([Event.translatorCall q], dictUpdate base (parse_car_query completion))
  pre.1 ++ Event.listingsRequest pre.2 ::
    (match http with
     | .timeout => [Event.replyText "The request timed out. Please try again."]
     | .httpError _ =>
       [Event.replyText "An error occurred while fetching car data. Please try again."]
     | .invalidJson =>
       [Event.replyText "An error occurred while fetching car data. Please try again."]
     | .ok records =>
       if (records.getD []).length = 0 then
         if target_price < 1000 then [Event.replyPhoto "betmore.png" none]
         else if target_price > 25000000 then [Event.replyPhoto "betless.png" none]
         else [Event.replyText "Sorry, I couldn't find any cars matching your criteria. Try adjusting your search parameters."]
       else [])

/-- `get_random_car` of src/carbot.py (lines 211-238): usage message on no
args, validation message when `int(args[0])` raises, the silent
`if search_query == "ebay": pass` branch, and otherwise delegation to
`get_autodev_car` with the space-joined remaining args (or `None`). -/
def get_random_car (apikey : String) (args : List String)
    (completion : CompletionOutcome) (http : HttpOutcome) : List Event :=
  match args with
  | [] => [Event.replyText "Please provide an amount: /car [amount] [optional: description]"]
  | first :: rest =>
    match pyInt first with
    | none => [Event.replyText "Please provide a valid number for the amount."]
    | some amount =>
      let search_query : Option String :=
        if rest.isEmpty then none else some (joinSpace rest)
      if search_query = some "ebay" then []
      else get_autodev_car apikey amount search_query completion http

end Carbot

namespace CarbotV2

open CarbotModel

/-- `get_random_car` of src/carbotv2.py (lines 24-68) as an effect trace:
usage message unless `args[0].isdigit()`; one listings GET; on a
non-empty `records` list a uniformly chosen listing (index oracle
`choiceIdx`) formatted with the fixed template, photo-with-caption when
`primaryPhotoUrl` is truthy else text; on an absent or empty `records`
list, the `betless` image for `target_price < 10000000` else the
`betmore` image; every exception in the try block is answered with the
generic error text. -/
def get_random_car (apikey : String) (args : List String)
    (http : HttpOutcome) (choiceIdx : Nat) : List Event :=
  match args with
  | [] => [Event.replyText "Please provide a valid dollar amount. Usage: /car [amount]"]
  | first :: _ =>
    if !pyIsDigit first then
      [Event.replyText "Please provide a valid dollar amount. Usage: /car [amount]"]
    else
      let target_price : Int := (digitsVal first.data : Int)
      Event.listingsRequest (searchParams apikey target_price) ::
        (match http with
         | .ok (some recs) =>
           if 0 < recs.length then
             let listing := recs.getD (choiceIdx % recs.length) ⟨none, none, none, none⟩
             let message := listingMessage target_price listing
             if truthyStrOpt listing.primaryPhotoUrl then
               [Event.replyPhoto (listing.primaryPhotoUrl.getD "") (some message)]
             else [Event.replyText message]
           else
             if target_price < 10000000 then [Event.replyPhoto "./betless.jpeg" none]
             else [Event.replyPhoto "./betmore.jpeg" none]
         | .ok none =>
           if target_price < 10000000 then [Event.replyPhoto "./betless.jpeg" none]
           else [Event.replyPhoto "./betmore.jpeg" none]
         | _ => [Event.replyText "An error occurred. Please try again."])

end CarbotV2

namespace CarbotModel

theorem dictUpdate_nil (base : List (String × Json)) : dictUpdate base [] = base := rfl

theorem dictUpdate_cons (base : List (String × Json)) (k : String) (v : Json)
    (tl : List (String × Json)) :
    dictUpdate base ((k, v) :: tl) = dictUpdate (setKey base k v) tl := rfl

theorem lookupKey_cons (kv : String × Json) (tl : List (String × Json)) (k : String) :
    lookupKey (kv :: tl) k = if kv.1 == k then some kv.2 else lookupKey tl k := by
  cases h : kv.1 == k <;> simp [lookupKey, List.find?, h]

theorem lookupKey_setKey_self (l : List (String × Json)) (k : String) (v : Json) :
    lookupKey (setKey l k v) k = some v := by
  induction l with
  | nil => simp [setKey, lookupKey_cons]
  | cons kv tl ih =>
    unfold setKey
    cases h : kv.1 == k
    · simp [h, lookupKey_cons, ih]
    · simp [h, lookupKey_cons]

theorem lookupKey_setKey_other (l : List (String × Json)) (k : String) (v : Json)
    (k' : String) (h : k' ≠ k) :
    lookupKey (setKey l k v) k' = lookupKey l k' := by
  induction l with
  | nil => simp [setKey, lookupKey_cons, lookupKey, Ne.symm h]
  | cons kv tl ih =>
    unfold setKey
    cases hk : kv.1 == k
    · simp [hk, lookupKey_cons, ih]
    · have : kv.1 = k := by simpa using hk
      simp [hk, lookupKey_cons, this, Ne.symm h]

theorem lookupKey_dictUpdate_of_not_mem (extra : List (String × Json))
    (base : List (String × Json)) (k : String) (h : ∀ kv ∈ extra, kv.1 ≠ k) :
    lookupKey (dictUpdate base extra) k = lookupKey base k := by
  induction extra generalizing base with
  | nil => rfl
  | cons kv tl ih =>
    rw [show dictUpdate base (kv :: tl) = dictUpdate (setKey base kv.1 kv.2) tl from rfl]
    rw [ih _ (fun x hx => h x (List.mem_cons_of_mem _ hx))]
    exact lookupKey_setKey_other _ _ _ _ (Ne.symm (h kv (List.mem_cons_self _ _)))

theorem lookupKey_dictUpdate_of_mem (extra : List (String × Json))
    (base : List (String × Json)) (k : String) (v : Json)
    (hnd : (extra.map Prod.fst).Nodup) (h : (k, v) ∈ extra) :
    lookupKey (dictUpdate base extra) k = some v := by
  induction extra generalizing base with
  | nil => cases h
  | cons kv tl ih =>
    obtain ⟨hhead, htl⟩ := List.nodup_cons.mp hnd
    rw [show dictUpdate base (kv :: tl) = dictUpdate (setKey base kv.1 kv.2) tl from rfl]
    rcases List.mem_cons.mp h with rfl | hmem
    · rw [lookupKey_dictUpdate_of_not_mem]
      · exact lookupKey_setKey_self _ _ _
      · intro x hx hfst
        have hxm : x.1 ∈ List.map Prod.fst tl := List.mem_map_of_mem Prod.fst hx
        rw [hfst] at hxm
        exact hhead hxm
    · exact ih _ htl hmem

theorem eq_of_mem_of_nodupKeys {l : List (String × Json)}
    (hnd : (l.map Prod.fst).Nodup) {k : String} {a b : Json}
    (ha : (k, a) ∈ l) (hb : (k, b) ∈ l) : a = b := by
  induction l with
  | nil => cases ha
  | cons kv tl ih =>
    obtain ⟨hhead, htl⟩ := List.nodup_cons.mp hnd
    rcases List.mem_cons.mp ha with rfl | ha' <;> rcases List.mem_cons.mp hb with heq | hb'
    · exact (Prod.mk.injEq .. ▸ heq).2.symm
    · exact absurd (List.mem_map_of_mem Prod.fst hb') hhead
    · rw [← heq] at hhead
      exact absurd (List.mem_map_of_mem Prod.fst ha') hhead
    · exact ih htl ha' hb'

theorem Json.isNull_false_iff (v : Json) : v.isNull = false ↔ v ≠ Json.null := by
  cases v <;> simp [Json.isNull]

theorem joinSpace_two (a b : String) (t : List String) :
    joinSpace (a :: b :: t) = a ++ " " ++ joinSpace (b :: t) := rfl

theorem space_mem_joinSpace (a b : String) (t : List String) :
    ' ' ∈ (joinSpace (a :: b :: t)).data := by
  rw [joinSpace_two]
  simp [String.data_append]

theorem joinSpace_ne_ebay (a b : String) (t : List String) :
    joinSpace (a :: b :: t) ≠ "ebay" ∧ (joinSpace (a :: b :: t)).isEmpty = false := by
  have hsp := space_mem_joinSpace a b t
  have h1 : joinSpace (a :: b :: t) ≠ "ebay" := by
    intro he
    rw [he] at hsp
    revert hsp
    decide
  have h2 : joinSpace (a :: b :: t) ≠ "" := by
    intro he
    rw [he] at hsp
    revert hsp
    decide
  refine ⟨h1, ?_⟩
  rw [Bool.eq_false_iff]
  intro hE
  exact h2 ((String.isEmpty_iff _).mp hE)

end CarbotModel

open CarbotModel in
/-- C6: for every non-negative integer amount, the listings query is built
with price_min = max(0, amount*0.9) and price_max = amount*1.10, and
price_min ≤ price_max. -/
theorem priceWindow_correct (apikey : String) (amount : Int) (h : 0 ≤ amount) :
    lookupKey (searchParams apikey amount) "price_min" =
      some (Json.num (max 0 ((amount : ℚ) * (9 / 10)))) ∧
    lookupKey (searchParams apikey amount) "price_max" =
      some (Json.num ((amount : ℚ) * (11 / 10))) ∧
    price_min amount ≤ price_max amount := by
  refine ⟨rfl, rfl, ?_⟩
  have h0 : (0 : ℚ) ≤ (amount : ℚ) := by exact_mod_cast h
  unfold price_min price_max
  apply max_le
  · nlinarith
  · nlinarith

open CarbotModel in
/-- Witness for C6 at the spec's own example amount 20000, whose price
window is [18000, 22000]. -/
theorem priceWindow_correct_witness :
    (0 : Int) ≤ 20000 ∧
    (lookupKey (searchParams "k" 20000) "price_min" =
        some (Json.num (max 0 ((20000 : ℚ) * (9 / 10)))) ∧
      lookupKey (searchParams "k" 20000) "price_max" =
        some (Json.num ((20000 : ℚ) * (11 / 10))) ∧
      price_min 20000 ≤ price_max 20000) ∧
    price_min 20000 = 18000 ∧ price_max 20000 = 22000 :=
  ⟨by decide, priceWindow_correct "k" 20000 (by decide), by norm_num [CarbotModel.price_min, CarbotModel.price_max]⟩

open CarbotModel in
/-- C10: the well-formed invocation `/car 5000 ebay` — a valid amount
followed by the single free-text word "ebay" — produces an empty effect
trace for every oracle: no translator call, no listings request, and no
reply of any kind. -/
theorem ebay_branch_silent (apikey : String) (completion : CompletionOutcome)
    (http : HttpOutcome) :
    Carbot.get_random_car apikey ["5000", "ebay"] completion http = [] := rfl

open CarbotModel in
/-- C4: whenever the completion call fails, or returns empty or
whitespace-only text, or text that does not decode as JSON, translate
returns the empty filter set, and the pipeline proceeds with the
price-only listings query. -/
theorem translate_degraded_empty (apikey : String) (amount : Int) (q : String)
    (completion : CompletionOutcome) (http : HttpOutcome)
    (hfail : completion = CompletionOutcome.callFailed ∨
      ∃ text parsed, completion = CompletionOutcome.returned text parsed ∧
        (text.isEmpty = true ∨ pyIsSpace text = true ∨ parsed = none)) :
    Carbot.parse_car_query completion = [] ∧
    Event.listingsRequest (searchParams apikey amount) ∈
      Carbot.get_autodev_car apikey amount (some q) completion http := by
  have hempty : Carbot.parse_car_query completion = [] := by
    rcases hfail with h | ⟨text, parsed, rfl, hcase⟩
    · rw [h]; rfl
    · rcases hcase with h | h | h
      · simp [Carbot.parse_car_query, h]
      · simp [Carbot.parse_car_query, h]
      · subst h
        simp [Carbot.parse_car_query]
  refine ⟨hempty, ?_⟩
  by_cases hq : q.isEmpty = true
  · simp [Carbot.get_autodev_car, hq, hempty, dictUpdate_nil]
  · simp [Carbot.get_autodev_car, hq, hempty, dictUpdate_nil]

open CarbotModel in
/-- Witness for C4: the failed completion call during `/car 20000 red bmw`
yields the empty filter set and a price-only listings request. -/
theorem translate_degraded_empty_witness :
    (CompletionOutcome.callFailed = CompletionOutcome.callFailed ∨
      ∃ text parsed, CompletionOutcome.callFailed = CompletionOutcome.returned text parsed ∧
        (text.isEmpty = true ∨ pyIsSpace text = true ∨ parsed = none)) ∧
    Carbot.parse_car_query CompletionOutcome.callFailed = [] ∧
    Event.listingsRequest (searchParams "k" 20000) ∈
      Carbot.get_autodev_car "k" 20000 (some "red bmw") CompletionOutcome.callFailed
        (HttpOutcome.ok none) :=
  ⟨Or.inl rfl,
   translate_degraded_empty "k" 20000 "red bmw" CompletionOutcome.callFailed
     (HttpOutcome.ok none) (Or.inl rfl)⟩

open CarbotModel in
/-- C5: on a successfully parsed completion JSON object (non-empty,
non-whitespace text), translate returns exactly the non-null key/value
pairs: a pair is in the result iff it is in the object with a non-null
value (values verbatim), and every null-valued key is absent. -/
theorem translate_passthrough (text : String) (entries : List (String × Json))
    (htext : (text.isEmpty || pyIsSpace text) = false)
    (hnd : (entries.map Prod.fst).Nodup) :
    (∀ k v, (k, v) ∈ Carbot.parse_car_query
        (CompletionOutcome.returned text (some (Json.obj entries))) ↔
      ((k, v) ∈ entries ∧ v ≠ Json.null)) ∧
    (∀ k, (k, Json.null) ∈ entries → ∀ v,
      (k, v) ∉ Carbot.parse_car_query
        (CompletionOutcome.returned text (some (Json.obj entries)))) := by
  have hres : Carbot.parse_car_query
      (CompletionOutcome.returned text (some (Json.obj entries))) =
      entries.filter (fun kv => !kv.2.isNull) := by
    simp [Carbot.parse_car_query, htext]
  rw [hres]
  constructor
  · intro k v
    rw [List.mem_filter]
    simp only [Bool.not_eq_true']
    rw [Json.isNull_false_iff]
  · intro k hknull v hvmem
    obtain ⟨hmem, hval⟩ := List.mem_filter.mp hvmem
    have : v = Json.null := eq_of_mem_of_nodupKeys hnd hmem hknull
    subst this
    simp [Json.isNull] at hval

open CarbotModel in
/-- Witness for C5 on the object from the prompt's worked example,
`\x7b"make": "BMW", "model": null\x7d`: "make" passes through verbatim and
"model" is absent. -/
theorem translate_passthrough_witness :
    ("make", Json.str "BMW") ∈ Carbot.parse_car_query
      (CompletionOutcome.returned "x"
        (some (Json.obj [("make", Json.str "BMW"), ("model", Json.null)]))) ∧
    ∀ v, ("model", v) ∉ Carbot.parse_car_query
      (CompletionOutcome.returned "x"
        (some (Json.obj [("make", Json.str "BMW"), ("model", Json.null)]))) := by
  have h := translate_passthrough "x" [("make", Json.str "BMW"), ("model", Json.null)]
    (by decide) (by simp)
  exact ⟨(h.1 "make" (Json.str "BMW")).mpr ⟨by simp, by simp⟩, h.2 "model" (by simp)⟩

namespace CarbotModel

theorem schemaKeys_ne_price (k : String) (h : k ∈ schemaKeys) :
    k ≠ "price_min" ∧ k ≠ "price_max" := by
  simp only [schemaKeys, List.mem_cons, List.mem_singleton, List.not_mem_nil, or_false] at h
  rcases h with rfl | rfl | rfl | rfl | rfl | rfl | rfl | rfl | rfl | rfl <;> exact ⟨by decide, by decide⟩

end CarbotModel

open CarbotModel in
/-- The trace of src/carbot.py's `get_autodev_car` with no search query:
one price-only listings request followed only by replies. -/
theorem get_autodev_car_none_trace (apikey : String) (amount : Int)
    (completion : CompletionOutcome) (http : HttpOutcome) :
    ∃ tail, Carbot.get_autodev_car apikey amount none completion http =
      Event.listingsRequest (searchParams apikey amount) :: tail ∧
      ∀ e ∈ tail, isReply e = true := by
  cases http with
  | timeout => exact ⟨_, rfl, by intro e he; simp at he; subst he; rfl⟩
  | httpError body => exact ⟨_, rfl, by intro e he; simp at he; subst he; rfl⟩
  | invalidJson => exact ⟨_, rfl, by intro e he; simp at he; subst he; rfl⟩
  | ok records =>
    refine ⟨_, rfl, ?_⟩
    intro e he
    repeat' split at he
    all_goals simp_all [isReply]

open CarbotModel in
/-- C8: with a valid first argument and at least two further arguments, the
handler invokes the translator with the space-join of the further
arguments and issues the listings query carrying the amount's price
window plus every filter the translator returned (filters whose keys
follow the completion schema); with no further arguments the translator
is never invoked and the query is price-only. -/
theorem handler_freetext_and_merge (apikey : String) (first : String) (amount : Int)
    (rest : List String) (completion : CompletionOutcome) (http : HttpOutcome)
    (hfirst : pyInt first = some amount) (hlen : 2 ≤ rest.length)
    (hkeys : ∀ kv ∈ Carbot.parse_car_query completion, kv.1 ∈ schemaKeys)
    (hnd : ((Carbot.parse_car_query completion).map Prod.fst).Nodup) :
    (Event.translatorCall (joinSpace rest) ∈
        Carbot.get_random_car apikey (first :: rest) completion http ∧
      Event.listingsRequest
          (dictUpdate (searchParams apikey amount) (Carbot.parse_car_query completion)) ∈
        Carbot.get_random_car apikey (first :: rest) completion http ∧
      lookupKey (dictUpdate (searchParams apikey amount) (Carbot.parse_car_query completion))
          "price_min" = some (Json.num (price_min amount)) ∧
      lookupKey (dictUpdate (searchParams apikey amount) (Carbot.parse_car_query completion))
          "price_max" = some (Json.num (price_max amount)) ∧
      ∀ kv ∈ Carbot.parse_car_query completion,
        lookupKey (dictUpdate (searchParams apikey amount) (Carbot.parse_car_query completion))
          kv.1 = some kv.2) ∧
    ((∀ q, Event.translatorCall q ∉ Carbot.get_random_car apikey [first] completion http) ∧
      Event.listingsRequest (searchParams apikey amount) ∈
        Carbot.get_random_car apikey [first] completion http) := by
  obtain ⟨a, b, t, rfl⟩ : ∃ a b t, rest = a :: b :: t := by
    match rest, hlen with
    | a :: b :: t, _ => exact ⟨a, b, t, rfl⟩
  obtain ⟨hne, hemp⟩ := joinSpace_ne_ebay a b t
  constructor
  · have hred : Carbot.get_random_car apikey (first :: a :: b :: t) completion http =
        Carbot.get_autodev_car apikey amount (some (joinSpace (a :: b :: t)))
          completion http := by
      simp [Carbot.get_random_car, hfirst, hne]
    rw [hred]
    refine ⟨?_, ?_, ?_, ?_, ?_⟩
    · simp [Carbot.get_autodev_car, hemp]
    · simp [Carbot.get_autodev_car, hemp]
    · rw [lookupKey_dictUpdate_of_not_mem]
      · rfl
      · intro kv hkv
        exact (schemaKeys_ne_price kv.1 (hkeys kv hkv)).1
    · rw [lookupKey_dictUpdate_of_not_mem]
      · rfl
      · intro kv hkv
        exact (schemaKeys_ne_price kv.1 (hkeys kv hkv)).2
    · intro kv hkv
      exact lookupKey_dictUpdate_of_mem _ _ _ _ hnd hkv
  · obtain ⟨tail, htr, hrep⟩ := get_autodev_car_none_trace apikey amount completion http
    have hred0 : Carbot.get_random_car apikey [first] completion http =
        Carbot.get_autodev_car apikey amount none completion http := by
      simp [Carbot.get_random_car, hfirst]
    rw [hred0, htr]
    constructor
    · intro q hq
      rcases List.mem_cons.mp hq with h | h
      · exact Event.noConfusion h
      · simpa [isReply] using hrep _ h
    · exact List.mem_cons_self _ _

open CarbotModel in
/-- Witness for C8 at the spec's example `/car 20000 red bmw`, the
translator returning make BMW and exterior color red. -/
theorem handler_freetext_and_merge_witness :
    pyInt "20000" = some 20000 ∧
    2 ≤ (["red", "bmw"] : List String).length ∧
    joinSpace ["red", "bmw"] = "red bmw" ∧
    ((Event.translatorCall (joinSpace ["red", "bmw"]) ∈
        Carbot.get_random_car "k" ("20000" :: ["red", "bmw"])
          (CompletionOutcome.returned "x" (some (Json.obj
            [("make", Json.str "BMW"), ("exterior_color[]", Json.str "red")])))
          (HttpOutcome.ok none) ∧
      Event.listingsRequest
          (dictUpdate (searchParams "k" 20000)
            (Carbot.parse_car_query (CompletionOutcome.returned "x" (some (Json.obj
              [("make", Json.str "BMW"), ("exterior_color[]", Json.str "red")]))))) ∈
        Carbot.get_random_car "k" ("20000" :: ["red", "bmw"])
          (CompletionOutcome.returned "x" (some (Json.obj
            [("make", Json.str "BMW"), ("exterior_color[]", Json.str "red")])))
          (HttpOutcome.ok none) ∧
      lookupKey
          (dictUpdate (searchParams "k" 20000)
            (Carbot.parse_car_query (CompletionOutcome.returned "x" (some (Json.obj
              [("make", Json.str "BMW"), ("exterior_color[]", Json.str "red")])))))
          "price_min" = some (Json.num (price_min 20000)) ∧
      lookupKey
          (dictUpdate (searchParams "k" 20000)
            (Carbot.parse_car_query (CompletionOutcome.returned "x" (some (Json.obj
              [("make", Json.str "BMW"), ("exterior_color[]", Json.str "red")])))))
          "price_max" = some (Json.num (price_max 20000)) ∧
      ∀ kv ∈ Carbot.parse_car_query (CompletionOutcome.returned "x" (some (Json.obj
          [("make", Json.str "BMW"), ("exterior_color[]", Json.str "red")]))),
        lookupKey
          (dictUpdate (searchParams "k" 20000)
            (Carbot.parse_car_query (CompletionOutcome.returned "x" (some (Json.obj
              [("make", Json.str "BMW"), ("exterior_color[]", Json.str "red")])))))
          kv.1 = some kv.2) ∧
    ((∀ q, Event.translatorCall q ∉
        Carbot.get_random_car "k" ["20000"]
          (CompletionOutcome.returned "x" (some (Json.obj
            [("make", Json.str "BMW"), ("exterior_color[]", Json.str "red")])))
          (HttpOutcome.ok none)) ∧
      Event.listingsRequest (searchParams "k" 20000) ∈
        Carbot.get_random_car "k" ["20000"]
          (CompletionOutcome.returned "x" (some (Json.obj
            [("make", Json.str "BMW"), ("exterior_color[]", Json.str "red")])))
          (HttpOutcome.ok none))) :=
  ⟨by decide, by decide, rfl,
   handler_freetext_and_merge "k" "20000" 20000 ["red", "bmw"]
     (CompletionOutcome.returned "x" (some (Json.obj
       [("make", Json.str "BMW"), ("exterior_color[]", Json.str "red")])))
     (HttpOutcome.ok none) (by decide) (by decide) (by decide) (by decide)⟩

open CarbotModel in
/-- Counterexample to C3: "-5" does not parse as a non-negative integer,
yet src/carbot.py's handler does not reply with the validation error and
keeps processing — it issues the listings request (and here, with no
matching records, even sends the below-1000 fallback photo). -/
theorem negative_amount_processed :
    pyInt "-5" = some (-5) ∧
    Event.listingsRequest (searchParams "k" (-5)) ∈
      Carbot.get_random_car "k" ["-5"] CompletionOutcome.callFailed (HttpOutcome.ok none) ∧
    Event.replyText "Please provide a valid number for the amount." ∉
      Carbot.get_random_car "k" ["-5"] CompletionOutcome.callFailed (HttpOutcome.ok none) := by
  have h : Carbot.get_random_car "k" ["-5"] CompletionOutcome.callFailed (HttpOutcome.ok none) =
      [Event.listingsRequest (searchParams "k" (-5)),
       Event.replyPhoto "betmore.png" none] := rfl
  refine ⟨rfl, ?_, ?_⟩ <;> rw [h] <;> simp

open CarbotModel in
/-- C3 amended: an empty argument list yields the usage message and a
first argument on which Python `int` raises (in carbotv2: whose `isdigit`
is false) yields the validation message, with no translator call and no
listings request in either file; but the non-negativity requirement holds
only in carbotv2 — carbot.py accepts any integer, including negatives
(see the counterexample). -/
theorem invalid_amount_rejected (apikey : String) (first : String) (rest : List String)
    (completion : CompletionOutcome) (http : HttpOutcome) (choiceIdx : Nat)
    (hbad : pyInt first = none) (hdig : pyIsDigit first = false) :
    Carbot.get_random_car apikey (first :: rest) completion http =
      [Event.replyText "Please provide a valid number for the amount."] ∧
    Carbot.get_random_car apikey [] completion http =
      [Event.replyText "Please provide an amount: /car [amount] [optional: description]"] ∧
    CarbotV2.get_random_car apikey (first :: rest) http choiceIdx =
      [Event.replyText "Please provide a valid dollar amount. Usage: /car [amount]"] ∧
    CarbotV2.get_random_car apikey [] http choiceIdx =
      [Event.replyText "Please provide a valid dollar amount. Usage: /car [amount]"] := by
  refine ⟨?_, rfl, ?_, rfl⟩
  · simp [Carbot.get_random_car, hbad]
  · simp [CarbotV2.get_random_car, hdig]

open CarbotModel in
/-- Witness for the amended C3 at the spec's probe argument "abc". -/
theorem invalid_amount_rejected_witness :
    pyInt "abc" = none ∧ pyIsDigit "abc" = false ∧
    (Carbot.get_random_car "k" ["abc"] CompletionOutcome.callFailed HttpOutcome.timeout =
        [Event.replyText "Please provide a valid number for the amount."] ∧
      Carbot.get_random_car "k" [] CompletionOutcome.callFailed HttpOutcome.timeout =
        [Event.replyText "Please provide an amount: /car [amount] [optional: description]"] ∧
      CarbotV2.get_random_car "k" ["abc"] HttpOutcome.timeout 0 =
        [Event.replyText "Please provide a valid dollar amount. Usage: /car [amount]"] ∧
      CarbotV2.get_random_car "k" [] HttpOutcome.timeout 0 =
        [Event.replyText "Please provide a valid dollar amount. Usage: /car [amount]"]) :=
  ⟨rfl, rfl,
   invalid_amount_rejected "k" "abc" [] CompletionOutcome.callFailed HttpOutcome.timeout 0
     rfl rfl⟩

open CarbotModel in
/-- The trace of src/carbot.py's `get_autodev_car` on a decoded body with
no records: any translator events, the listings request, then exactly the
price fallback reply. -/
theorem get_autodev_car_empty_records (apikey : String) (amount : Int)
    (sq : Option String) (completion : CompletionOutcome)
    (records : Option (List ListingRecord)) (hempty : records.getD [] = []) :
    ∃ pre params,
      Carbot.get_autodev_car apikey amount sq completion (HttpOutcome.ok records) =
        pre ++ Event.listingsRequest params ::
          [if amount < 1000 then Event.replyPhoto "betmore.png" none
           else if amount > 25000000 then Event.replyPhoto "betless.png" none
           else Event.replyText "Sorry, I couldn't find any cars matching your criteria. Try adjusting your search parameters."] ∧
      ∀ e ∈ pre, isReply e = false := by
  have hlen : (records.getD []).length = 0 := by rw [hempty]; rfl
  cases sq with
  | none =>
    refine ⟨[], searchParams apikey amount, ?_, by intro e he; cases he⟩
    simp [Carbot.get_autodev_car, hlen]
    split_ifs <;> rfl
  | some q =>
    by_cases hq : q.isEmpty = true
    · refine ⟨[], searchParams apikey amount, ?_, by intro e he; cases he⟩
      simp [Carbot.get_autodev_car, hq, hlen]
      split_ifs <;> rfl
    · refine ⟨[Event.translatorCall q],
        dictUpdate (searchParams apikey amount) (Carbot.parse_car_query completion), ?_, ?_⟩
      · simp [Carbot.get_autodev_car, hq, hlen]
        split_ifs <;> rfl
      · intro e he
        simp at he
        subst he
        rfl

open CarbotModel in
/-- C2 amended: on an empty result set src/carbot.py replies exactly as
the claim states — the betmore image below 1000, the betless image above
25000000, else the fixed no-match text, exactly one reply; but
src/carbotv2.py uses an inverted policy with a different threshold — the
betless image for amounts below 10000000, else the betmore image, and
never the no-match text. -/
theorem empty_results_price_fallback (apikey : String) (amount : Int)
    (sq : Option String) (completion : CompletionOutcome)
    (records : Option (List ListingRecord)) (hempty : records.getD [] = [])
    (first : String) (hdig : pyIsDigit first = true)
    (rest : List String) (choiceIdx : Nat) :
    ((amount < 1000 → Event.replyPhoto "betmore.png" none ∈
        Carbot.get_autodev_car apikey amount sq completion (HttpOutcome.ok records)) ∧
      (amount > 25000000 → Event.replyPhoto "betless.png" none ∈
        Carbot.get_autodev_car apikey amount sq completion (HttpOutcome.ok records)) ∧
      (1000 ≤ amount → amount ≤ 25000000 →
        Event.replyText "Sorry, I couldn't find any cars matching your criteria. Try adjusting your search parameters." ∈
          Carbot.get_autodev_car apikey amount sq completion (HttpOutcome.ok records)) ∧
      countReplies
        (Carbot.get_autodev_car apikey amount sq completion (HttpOutcome.ok records)) = 1) ∧
    CarbotV2.get_random_car apikey (first :: rest) (HttpOutcome.ok records) choiceIdx =
      [Event.listingsRequest (searchParams apikey (digitsVal first.data : Int)),
       if (digitsVal first.data : Int) < 10000000 then Event.replyPhoto "./betless.jpeg" none
       else Event.replyPhoto "./betmore.jpeg" none] := by
  obtain ⟨pre, params, htr, hpre⟩ :=
    get_autodev_car_empty_records apikey amount sq completion records hempty
  constructor
  · rw [htr]
    refine ⟨?_, ?_, ?_, ?_⟩
    · intro h1
      simp [h1]
    · intro h2
      have h1 : ¬ amount < 1000 := by omega
      simp [h1, h2]
    · intro h1 h2
      have h1' : ¬ amount < 1000 := by omega
      have h2' : ¬ amount > 25000000 := by omega
      simp [h1', h2']
    · have hpre0 : pre.filter isReply = [] := by
        rw [List.filter_eq_nil_iff]
        intro e he
        simp [hpre e he]
      rw [countReplies, List.filter_append, hpre0]
      split_ifs <;> rfl
  · have hrec : records = none ∨ records = some [] := by
      cases records with
      | none => exact Or.inl rfl
      | some l => exact Or.inr (congrArg some hempty)
    rcases hrec with rfl | rfl <;>
      · simp [CarbotV2.get_random_car, hdig]
        split_ifs <;> rfl

open CarbotModel in
/-- Counterexample to C2: in src/carbotv2.py an empty result set for
amount 500 (below 1000) is answered with the betless image, not the
claimed "bet more" image (and not carbot.py's betmore file either). -/
theorem v2_fallback_inverted :
    CarbotV2.get_random_car "k" ["500"] (HttpOutcome.ok none) 0 =
      [Event.listingsRequest (searchParams "k" 500),
       Event.replyPhoto "./betless.jpeg" none] ∧
    Event.replyPhoto "./betmore.jpeg" none ∉
      CarbotV2.get_random_car "k" ["500"] (HttpOutcome.ok none) 0 ∧
    Event.replyPhoto "betmore.png" none ∉
      CarbotV2.get_random_car "k" ["500"] (HttpOutcome.ok none) 0 := by
  have h : CarbotV2.get_random_car "k" ["500"] (HttpOutcome.ok none) 0 =
      [Event.listingsRequest (searchParams "k" 500),
       Event.replyPhoto "./betless.jpeg" none] := rfl
  refine ⟨h, ?_, ?_⟩ <;> rw [h] <;> simp

open CarbotModel in
/-- Witness for the amended C2 at the spec's probe amount 500 with an
absent records field. -/
theorem empty_results_price_fallback_witness :
    (Option.getD (α := List ListingRecord) none [] = []) ∧
    pyIsDigit "500" = true ∧
    (((500 : Int) < 1000 → Event.replyPhoto "betmore.png" none ∈
        Carbot.get_autodev_car "k" 500 none CompletionOutcome.callFailed
          (HttpOutcome.ok none)) ∧
      ((500 : Int) > 25000000 → Event.replyPhoto "betless.png" none ∈
        Carbot.get_autodev_car "k" 500 none CompletionOutcome.callFailed
          (HttpOutcome.ok none)) ∧
      ((1000 : Int) ≤ 500 → (500 : Int) ≤ 25000000 →
        Event.replyText "Sorry, I couldn't find any cars matching your criteria. Try adjusting your search parameters." ∈
          Carbot.get_autodev_car "k" 500 none CompletionOutcome.callFailed
            (HttpOutcome.ok none)) ∧
      countReplies
        (Carbot.get_autodev_car "k" 500 none CompletionOutcome.callFailed
          (HttpOutcome.ok none)) = 1) ∧
    CarbotV2.get_random_car "k" ("500" :: []) (HttpOutcome.ok none) 0 =
      [Event.listingsRequest (searchParams "k" (digitsVal "500".data : Int)),
       if (digitsVal "500".data : Int) < 10000000 then Event.replyPhoto "./betless.jpeg" none
       else Event.replyPhoto "./betmore.jpeg" none] :=
  ⟨rfl, rfl,
   empty_results_price_fallback "k" 500 none CompletionOutcome.callFailed none rfl
     "500" rfl [] 0⟩

open CarbotModel in
/-- C7 amended: an absent records field is treated exactly like an empty
one (both yield the no-results path), and each record is mapped
field-by-field into the reply — present year, make, and model appear
verbatim and missing ones default to "N/A" (not "unknown"); a missing
photo URL yields the text-only reply and a non-empty one the photo
reply. -/
theorem record_mapping_defaults (apikey : String) (first : String)
    (hdig : pyIsDigit first = true) (rest : List String) (choiceIdx : Nat)
    (y : Int) (mk md : String) (u : String) (hu : u.isEmpty = false) :
    CarbotV2.get_random_car apikey (first :: rest) (HttpOutcome.ok none) choiceIdx =
      CarbotV2.get_random_car apikey (first :: rest) (HttpOutcome.ok (some [])) choiceIdx ∧
    CarbotV2.get_random_car apikey (first :: rest)
        (HttpOutcome.ok (some [⟨some y, some mk, some md, none⟩])) choiceIdx =
      [Event.listingsRequest (searchParams apikey (digitsVal first.data : Int)),
       Event.replyText ("With your $" ++ toString (digitsVal first.data : Int) ++
         ", you could have bought a " ++ toString y ++ " " ++ mk ++ " " ++ md ++ "!")] ∧
    CarbotV2.get_random_car apikey (first :: rest)
        (HttpOutcome.ok (some [⟨none, none, none, some u⟩])) choiceIdx =
      [Event.listingsRequest (searchParams apikey (digitsVal first.data : Int)),
       Event.replyPhoto u (some ("With your $" ++ toString (digitsVal first.data : Int) ++
         ", you could have bought a N/A N/A N/A!"))] := by
  refine ⟨?_, ?_, ?_⟩
  · simp [CarbotV2.get_random_car, hdig]
  · simp [CarbotV2.get_random_car, hdig, listingMessage, truthyStrOpt, Nat.mod_one]
  · simp [CarbotV2.get_random_car, hdig, listingMessage, truthyStrOpt, Nat.mod_one, hu]
    simp only [String.append_assoc]
    congr 2

open CarbotModel in
/-- Counterexample to C7: a record with missing year, make, and model is
rendered with "N/A" defaults, not with the claimed "unknown" defaults. -/
theorem record_defaults_not_unknown :
    CarbotV2.get_random_car "k" ["5000"]
        (HttpOutcome.ok (some [⟨none, none, none, none⟩])) 0 =
      [Event.listingsRequest (searchParams "k" 5000),
       Event.replyText "With your $5000, you could have bought a N/A N/A N/A!"] ∧
    Event.replyText "With your $5000, you could have bought a unknown unknown unknown!" ∉
      CarbotV2.get_random_car "k" ["5000"]
        (HttpOutcome.ok (some [⟨none, none, none, none⟩])) 0 := by
  have h : CarbotV2.get_random_car "k" ["5000"]
      (HttpOutcome.ok (some [⟨none, none, none, none⟩])) 0 =
      [Event.listingsRequest (searchParams "k" 5000),
       Event.replyText "With your $5000, you could have bought a N/A N/A N/A!"] := rfl
  refine ⟨h, ?_⟩
  rw [h]
  simp

open CarbotModel in
/-- Witness for the amended C7 at `/car 5000` with a 2012 BMW 328i
record and with an all-missing record. -/
theorem record_mapping_defaults_witness :
    pyIsDigit "5000" = true ∧ ("http://x".isEmpty = false) ∧
    (CarbotV2.get_random_car "k" ("5000" :: []) (HttpOutcome.ok none) 0 =
        CarbotV2.get_random_car "k" ("5000" :: []) (HttpOutcome.ok (some [])) 0 ∧
      CarbotV2.get_random_car "k" ("5000" :: [])
          (HttpOutcome.ok (some [⟨some 2012, some "BMW", some "328i", none⟩])) 0 =
        [Event.listingsRequest (searchParams "k" (digitsVal "5000".data : Int)),
         Event.replyText ("With your $" ++ toString (digitsVal "5000".data : Int) ++
           ", you could have bought a " ++ toString (2012 : Int) ++ " " ++ "BMW" ++ " " ++ "328i" ++ "!")] ∧
      CarbotV2.get_random_car "k" ("5000" :: [])
          (HttpOutcome.ok (some [⟨none, none, none, some "http://x"⟩])) 0 =
        [Event.listingsRequest (searchParams "k" (digitsVal "5000".data : Int)),
         Event.replyPhoto "http://x" (some ("With your $" ++ toString (digitsVal "5000".data : Int) ++
           ", you could have bought a N/A N/A N/A!"))]) :=
  ⟨rfl, rfl, record_mapping_defaults "k" "5000" rfl [] 0 2012 "BMW" "328i" "http://x" rfl⟩

open CarbotModel in
/-- C1: in src/carbotv2.py a non-empty result set yields exactly the
listings request and one reply carrying the chosen listing's message —
photo-with-caption when its photo URL is truthy, text-only otherwise; but
in src/carbot.py the unconditional return before the selection code means
a non-empty result set produces no reply at all. -/
theorem nonempty_selection_reply (apikey : String) (completion : CompletionOutcome)
    (first : String) (rest : List String) (hdig : pyIsDigit first = true)
    (recs : List ListingRecord) (hne : recs ≠ []) (choiceIdx : Nat) :
    (Event.listingsRequest (searchParams apikey 5000) ∈
        Carbot.get_random_car apikey ["5000"] completion
          (HttpOutcome.ok (some [⟨some 2012, some "BMW", some "328i", some "u"⟩])) ∧
      countReplies (Carbot.get_random_car apikey ["5000"] completion
        (HttpOutcome.ok (some [⟨some 2012, some "BMW", some "328i", some "u"⟩]))) = 0) ∧
    (recs.getD (choiceIdx % recs.length) ⟨none, none, none, none⟩ ∈ recs ∧
      CarbotV2.get_random_car apikey (first :: rest) (HttpOutcome.ok (some recs)) choiceIdx =
        [Event.listingsRequest (searchParams apikey (digitsVal first.data : Int)),
         if truthyStrOpt
             (recs.getD (choiceIdx % recs.length) ⟨none, none, none, none⟩).primaryPhotoUrl = true then
           Event.replyPhoto
             ((recs.getD (choiceIdx % recs.length) ⟨none, none, none, none⟩).primaryPhotoUrl.getD "")
             (some (listingMessage (digitsVal first.data : Int)
               (recs.getD (choiceIdx % recs.length) ⟨none, none, none, none⟩)))
         else
           Event.replyText (listingMessage (digitsVal first.data : Int)
             (recs.getD (choiceIdx % recs.length) ⟨none, none, none, none⟩))]) := by
  have hlen : 0 < recs.length := List.length_pos.mpr hne
  have h1 : Carbot.get_random_car apikey ["5000"] completion
      (HttpOutcome.ok (some [⟨some 2012, some "BMW", some "328i", some "u"⟩])) =
      [Event.listingsRequest (searchParams apikey 5000)] := rfl
  refine ⟨⟨?_, ?_⟩, ?_, ?_⟩
  · rw [h1]
    simp
  · rw [h1]
    rfl
  · rw [List.getD_eq_getElem _ _ (Nat.mod_lt _ hlen)]
    exact List.getElem_mem _
  · simp [CarbotV2.get_random_car, hdig, hlen]
    split_ifs <;> rfl

open CarbotModel in
/-- Witness for C1 at `/car 7000` with a single photo-less record. -/
theorem nonempty_selection_reply_witness :
    pyIsDigit "7000" = true ∧
    ([(⟨some 2020, some "Kia", some "Rio", none⟩ : ListingRecord)] ≠ []) ∧
    ((Event.listingsRequest (searchParams "k" 5000) ∈
        Carbot.get_random_car "k" ["5000"] CompletionOutcome.callFailed
          (HttpOutcome.ok (some [⟨some 2012, some "BMW", some "328i", some "u"⟩])) ∧
      countReplies (Carbot.get_random_car "k" ["5000"] CompletionOutcome.callFailed
        (HttpOutcome.ok (some [⟨some 2012, some "BMW", some "328i", some "u"⟩]))) = 0) ∧
    (([(⟨some 2020, some "Kia", some "Rio", none⟩ : ListingRecord)].getD
        (0 % [(⟨some 2020, some "Kia", some "Rio", none⟩ : ListingRecord)].length)
        ⟨none, none, none, none⟩ ∈
        [(⟨some 2020, some "Kia", some "Rio", none⟩ : ListingRecord)]) ∧
      CarbotV2.get_random_car "k" ("7000" :: [])
          (HttpOutcome.ok (some [⟨some 2020, some "Kia", some "Rio", none⟩])) 0 =
        [Event.listingsRequest (searchParams "k" (digitsVal "7000".data : Int)),
         if truthyStrOpt
             ([(⟨some 2020, some "Kia", some "Rio", none⟩ : ListingRecord)].getD
               (0 % [(⟨some 2020, some "Kia", some "Rio", none⟩ : ListingRecord)].length)
               ⟨none, none, none, none⟩).primaryPhotoUrl = true then
           Event.replyPhoto
             (([(⟨some 2020, some "Kia", some "Rio", none⟩ : ListingRecord)].getD
               (0 % [(⟨some 2020, some "Kia", some "Rio", none⟩ : ListingRecord)].length)
               ⟨none, none, none, none⟩).primaryPhotoUrl.getD "")
             (some (listingMessage (digitsVal "7000".data : Int)
               ([(⟨some 2020, some "Kia", some "Rio", none⟩ : ListingRecord)].getD
                 (0 % [(⟨some 2020, some "Kia", some "Rio", none⟩ : ListingRecord)].length)
                 ⟨none, none, none, none⟩)))
         else
           Event.replyText (listingMessage (digitsVal "7000".data : Int)
             ([(⟨some 2020, some "Kia", some "Rio", none⟩ : ListingRecord)].getD
               (0 % [(⟨some 2020, some "Kia", some "Rio", none⟩ : ListingRecord)].length)
               ⟨none, none, none, none⟩))])) :=
  ⟨rfl, by decide,
   nonempty_selection_reply "k" CompletionOutcome.callFailed "7000" []
     rfl [⟨some 2020, some "Kia", some "Rio", none⟩] (by decide) 0⟩

open CarbotModel in
/-- C9: every raised pipeline failure — timeout, HTTP-error status, or an
undecodable body — is caught inside src/carbot.py's `get_autodev_car` and
answered with exactly one error reply; but the claim's guarantee that no
invocation reaching the pipeline ends without a reply fails: a successful
query whose records are non-empty issues the listings request and then
produces no reply at all. -/
theorem pipeline_failures_one_reply (apikey : String) (amount : Int)
    (sq : Option String) (completion : CompletionOutcome) (http : HttpOutcome)
    (hfail : http = HttpOutcome.timeout ∨ (∃ b, http = HttpOutcome.httpError b) ∨
      http = HttpOutcome.invalidJson) :
    countReplies (Carbot.get_autodev_car apikey amount sq completion http) = 1 ∧
    (Event.listingsRequest (searchParams "k" 5000) ∈
        Carbot.get_random_car "k" ["5000"] CompletionOutcome.callFailed
          (HttpOutcome.ok (some [⟨none, none, none, none⟩])) ∧
      countReplies (Carbot.get_random_car "k" ["5000"] CompletionOutcome.callFailed
        (HttpOutcome.ok (some [⟨none, none, none, none⟩]))) = 0) := by
  have h1 : Carbot.get_random_car "k" ["5000"] CompletionOutcome.callFailed
      (HttpOutcome.ok (some [⟨none, none, none, none⟩])) =
      [Event.listingsRequest (searchParams "k" 5000)] := rfl
  refine ⟨?_, by rw [h1]; simp, by rw [h1]; rfl⟩
  rcases hfail with rfl | ⟨b, rfl⟩ | rfl <;>
  · cases sq with
    | none => rfl
    | some q =>
      by_cases hq : q.isEmpty = true
      · simp [Carbot.get_autodev_car, hq, countReplies, isReply]
      · simp [Carbot.get_autodev_car, hq, countReplies, isReply]

open CarbotModel in
/-- Witness for C9 at a timed-out listings call during `/car 5000`. -/
theorem pipeline_failures_one_reply_witness :
    (HttpOutcome.timeout = HttpOutcome.timeout ∨
      (∃ b, HttpOutcome.timeout = HttpOutcome.httpError b) ∨
      HttpOutcome.timeout = HttpOutcome.invalidJson) ∧
    countReplies (Carbot.get_autodev_car "k" 5000 none CompletionOutcome.callFailed
      HttpOutcome.timeout) = 1 ∧
    (Event.listingsRequest (searchParams "k" 5000) ∈
        Carbot.get_random_car "k" ["5000"] CompletionOutcome.callFailed
          (HttpOutcome.ok (some [⟨none, none, none, none⟩])) ∧
      countReplies (Carbot.get_random_car "k" ["5000"] CompletionOutcome.callFailed
        (HttpOutcome.ok (some [⟨none, none, none, none⟩]))) = 0) :=
  ⟨Or.inl rfl,
   pipeline_failures_one_reply "k" 5000 none CompletionOutcome.callFailed
     HttpOutcome.timeout (Or.inl rfl)⟩
